import Mathlib

set_option maxRecDepth 8000

/-!
Verification of the content-risk triage pipeline (nodes.py, workflow.py,
error_handler.py) against its specification.

The pipeline is shallowly embedded: the mutable `ContentState` dict becomes a
record of `Option` fields (absent key = `none`), each LangGraph node becomes a
Lean function from an environment (capturing the external capabilities: LLM
responses, JSON parsing results, news/fact-check lookups, and the ambient
Streamlit session values the code reads) and a state to an updated state plus
a list of observable events (capability calls issued, errors surfaced).
Machine floats are modelled as rationals.  `st.stop()` in the human-review
node is modelled as a halt signal: Streamlit control-flow exceptions derive
from `BaseException`, so the `except Exception` clause of `error_boundary`
does not intercept them, while every ordinary exception caught by
`error_boundary` turns into "no state update, continue" (the decorator
returns `None`).
-/

namespace ContentPipeline

/-- Characters `{` and `}` used by `extract_json` (nodes.py line 38). -/
def lbraceChar : Char := Char.ofNat 123

/-- Closing brace character. -/
def rbraceChar : Char := Char.ofNat 125

/-- Whether `pat` occurs at the head of `l` (helper for substring search). -/
def headMatches : List Char → List Char → Bool
  | [], _ => true
  | _ :: _, [] => false
  | a :: as, b :: bs => a = b && headMatches as bs

/-- Whether `pat` occurs anywhere in `l` (helper for Python `in` on strings). -/
def subOccurs (pat : List Char) : List Char → Bool
  | [] => headMatches pat []
  | b :: bs => headMatches pat (b :: bs) || subOccurs pat bs

/-- Python's `needle in hay` for strings. -/
def strHasSub (hay needle : String) : Bool :=
  subOccurs needle.data hay.data

/-- Python's `str.lower()` (ASCII-faithful model). -/
def lowerStr (s : String) : String := String.mk (s.data.map Char.toLower)

/-- Python's `str.upper()` (ASCII-faithful model). -/
def upperStr (s : String) : String := String.mk (s.data.map Char.toUpper)

/-- Strip leading and trailing whitespace from a character list. -/
def trimList (l : List Char) : List Char :=
  ((l.dropWhile Char.isWhitespace).reverse.dropWhile Char.isWhitespace).reverse

/-- Python's `str.strip()` (whitespace model). -/
def trimStr (s : String) : String := String.mk (trimList s.data)

/-- Fuel-driven replacement helper (the fuel is the input length; each step
consumes at least one character, so the fuel suffices for non-empty
patterns). -/
def replaceFuel (pat rep : List Char) : Nat → List Char → List Char
  | 0, l => l
  | _, [] => []
  | fuel + 1, c :: cs =>
    if headMatches pat (c :: cs) then
      rep ++ replaceFuel pat rep fuel (List.drop pat.length (c :: cs))
    else c :: replaceFuel pat rep fuel cs

/-- Python's `str.replace(pat, rep)` for a non-empty pattern. -/
def replaceStr (s pat rep : String) : String :=
  String.mk (replaceFuel pat.data rep.data s.data.length s.data)

/-- Helper for `pyTitle`: the boolean is whether the previous character was
alphabetic. -/
def pyTitleGo : Bool → List Char → List Char
  | _, [] => []
  | prevAlpha, c :: cs =>
    (if prevAlpha then Char.toLower c else Char.toUpper c) :: pyTitleGo c.isAlpha cs

/-- Python's `str.title()`: uppercase a letter that does not follow a letter,
lowercase the rest (ASCII-faithful model). -/
def pyTitle (s : String) : String := String.mk (pyTitleGo false s.data)

/-- Index of the first occurrence of `c` (Python `str.find`, `none` = -1). -/
def firstIdxOf (c : Char) : List Char → Option Nat
  | [] => none
  | a :: as => if a = c then some 0 else (firstIdxOf c as).map (· + 1)

/-- Index of the last occurrence of `c` (Python `str.rfind`, `none` = -1). -/
def lastIdxOf (c : Char) : List Char → Option Nat
  | [] => none
  | a :: as =>
    match lastIdxOf c as with
    | some k => some (k + 1)
    | none => if a = c then some 0 else none

/-- Model of Python's `f"{q:.1%}"` for the exact rationals this pipeline
produces (multiples of 1/1000): percent with one decimal digit. -/
def fmtPercent (q : ℚ) : String :=
  let t : Int := Int.floor (q * 1000)
  toString (t / 10) ++ "." ++ toString (t.natAbs % 10) ++ "%"

/-- nodes.py lines 36-39, `extract_json`: return the substring between the
first `{` and the last `}`, or the whole text when either is missing. -/
def extract_json (text : String) : String :=
  match firstIdxOf lbraceChar text.data, lastIdxOf rbraceChar text.data with
  | some i, some j => String.mk ((text.data.drop i).take (j + 1 - i))
  | _, _ => text

/-- Outcome of one `llm.invoke` attempt inside `call_llm_with_retry`:
either a response string (its `.content`) or a raised exception's text. -/
inductive LLMAttempt where
  | ok (rsp : String)
  | exn (msg : String)
deriving DecidableEq

/-- nodes.py lines 17-20: strip the response; an empty stripped response is
converted into a `ValueError("Empty LLM response")`. -/
def attemptResult : LLMAttempt → Except String String
  | .ok rsp =>
    if trimStr rsp = "" then .error "Empty LLM response" else .ok (trimStr rsp)
  | .exn m => .error m

/-- nodes.py line 22: the failure is rate-limit flavoured when its text
contains "429" or its lowercased text contains "rate". -/
def isRateError (e : String) : Bool :=
  strHasSub e "429" || strHasSub (lowerStr e) "rate"

/-- nodes.py line 23: `wait = min((2 ** attempt) * 2 + random.uniform(0, 1), 60)`;
the jitter sample is passed in explicitly. -/
def backoffWait (attempt : Nat) (jitter : ℚ) : ℚ :=
  min ((2 ^ attempt) * 2 + jitter) 60

/-- The retry loop of `call_llm_with_retry` (nodes.py lines 15-33).  `fuel` is
the number of attempts still allowed (initially `max_retries`), `attempt` the
current 0-based attempt index.  Returns the result (`ok` response or the
raised error text) together with the list of sleeps performed, in seconds. -/
def retryLoop (out : Nat → LLMAttempt) (jit : Nat → ℚ) :
    Nat → Nat → Except String String × List ℚ
  | 0, _ => (.error "LLM failed after retries", [])
  | fuel + 1, attempt =>
    match attemptResult (out attempt) with
    | .ok rsp => (.ok rsp, [])
    | .error e =>
      if isRateError e then
        if fuel = 0 then (.error e, [])
        else
          let r := retryLoop out jit fuel (attempt + 1)
          (r.1, backoffWait attempt (jit attempt) :: r.2)
      else
        if fuel = 0 then (.error e, [])
        else
          let r := retryLoop out jit fuel (attempt + 1)
          (r.1, (1 : ℚ) :: r.2)

/-- nodes.py lines 13-34, `call_llm_with_retry(llm, message, max_retries)`:
the LLM is modelled by the per-attempt outcomes `out` and jitter samples
`jit`. -/
def call_llm_with_retry (out : Nat → LLMAttempt) (jit : Nat → ℚ)
    (max_retries : Nat) : Except String String × List ℚ :=
  retryLoop out jit max_retries 0

/-- An entity record produced by content analysis
(`{"name": ..., "type": ..., "confidence": ...}`). -/
structure Entity where
  name : String
  etype : String
  confidence : ℚ
deriving DecidableEq

/-- A fact-check record (`{text, claimant, rating, url}`); only `rating` is
inspected by the pipeline. -/
structure FactCheckResult where
  fcText : String
  claimant : String
  rating : String
  url : String
deriving DecidableEq

/-- A related-news article record; the pipeline only counts and truncates
these, so the payload is left abstract as its title. -/
structure Article where
  title : String
deriving DecidableEq

/-- Sentiment mapping (Python dict of named scores), as an association list. -/
def Sentiment := List (String × ℚ)
deriving DecidableEq

/-- Result of `json.loads` on the content-analysis response: each key is
optional because the code reads every field with `data.get(key, default)`
(nodes.py lines 81-89). -/
structure AnalysisData where
  content_type : Option String
  language : Option String
  topics : Option (List String)
  entities : Option (List Entity)
  sentiment : Option Sentiment
  summary : Option String
  key_claims : Option (List String)
  writing_style : Option String

/-- Result of `json.loads` on the risk-assessment response.  All three fields
are mandatory: nodes.py lines 239-242 index `data["risk_level"]`,
`data["confidence"]`, `data["reason"]` directly, and a missing key raises,
which the surrounding `except` treats like any other failure, so a response
lacking a key is modelled as a failed parse. -/
structure RiskData where
  risk_level : String
  confidence : ℚ
  reason : String

/-- The `ContentState` TypedDict of workflow.py lines 13-52, as a record of
optional fields: `none` models an absent dict key, `some v` a present one.
`risk_reason` is additionally written by risk_assessment_node (nodes.py line
242) although the TypedDict does not declare it, so it is carried here too. -/
structure ContentState where
  text : Option String
  source_url : Option String
  force_human_review : Option Bool
  include_external_verification : Option Bool
  content_type : Option String
  language : Option String
  topics : Option (List String)
  entities : Option (List Entity)
  sentiment : Option Sentiment
  summary : Option String
  key_claims : Option (List String)
  writing_style : Option String
  fact_check_results : Option (List FactCheckResult)
  similar_articles : Option (List Article)
  verification_score : Option ℚ
  misinformation_flags : Option (List String)
  risk_level : Option String
  confidence_score : Option ℚ
  risk_score : Option ℚ
  flags_detected : Option Nat
  risk_reason : Option String
  human_approval : Option String
  review_status : Option String
  reviewer_notes : Option String
  recommendations : Option (List String)
  final_report : Option String
  processing_complete : Option Bool
  report_timestamp : Option String
  processing_time : Option ℚ
deriving DecidableEq

/-- The state every field of which is absent. -/
def emptyState : ContentState where
  text := none
  source_url := none
  force_human_review := none
  include_external_verification := none
  content_type := none
  language := none
  topics := none
  entities := none
  sentiment := none
  summary := none
  key_claims := none
  writing_style := none
  fact_check_results := none
  similar_articles := none
  verification_score := none
  misinformation_flags := none
  risk_level := none
  confidence_score := none
  risk_score := none
  flags_detected := none
  risk_reason := none
  human_approval := none
  review_status := none
  reviewer_notes := none
  recommendations := none
  final_report := none
  processing_complete := none
  report_timestamp := none
  processing_time := none

/-- The initial state the caller builds before invoking the graph
(app.py lines 351-356): exactly the four input keys are set. -/
def initialState (text source_url : String) (force incl : Bool) : ContentState :=
  { emptyState with
    text := some text
    source_url := some source_url
    force_human_review := some force
    include_external_verification := some incl }

/-- Observable side effects of a node: capability calls issued and errors
surfaced to the user. -/
inductive Event where
  | newsSearch (query : String)
  | factCheckSearch (query : String)
  | apiErrorShown (api : String) (msg : String)
  | boundaryErrorShown (fn : String) (msg : String)
deriving DecidableEq

/-- The ambient environment of one graph invocation: results of the external
capabilities (LLM, news search, fact-check search, JSON decoding) and the
Streamlit session values the nodes read. -/
structure Env where
  /-- Whether `get_llm_client()` returns a client (config.py). -/
  llmAvailable : Bool
  /-- Per-attempt outcomes of `llm.invoke` inside content analysis. -/
  ca_attempts : Nat → LLMAttempt
  /-- Per-attempt jitter samples `random.uniform(0, 1)`. -/
  ca_jitter : Nat → ℚ
  /-- `json.loads` on the extracted content-analysis response. -/
  parseAnalysis : String → Option AnalysisData
  /-- `cached_news_search` capability. -/
  news : String → List Article
  /-- `cached_fact_check` capability. -/
  factcheck : String → List FactCheckResult
  /-- The single `llm.invoke` of risk assessment (no retry there). -/
  ra_response : Except String String
  /-- `json.loads` plus mandatory-key extraction on the risk response. -/
  parseRisk : String → Option RiskData
  /-- `st.session_state["review_decision"]`, when present. -/
  review_decision : Option String
  /-- `st.session_state.get("reviewer_notes", "")`. -/
  session_reviewer_notes : String
  /-- `st.session_state.user_preferences["analysis_speed"]`; `none` models a
  missing preference (the `except` fallback to "balanced"). -/
  analysis_speed : Option String
  /-- `st.session_state.get("temp_reviewer_notes", "")`. -/
  temp_reviewer_notes : String
  /-- `st.session_state.get("session_id", "N/A")`. -/
  session_id : String
  /-- `time.strftime("%Y-%m-%d %H:%M:%S")` at report time. -/
  gen_timestamp : String
  /-- `int(time.time())` at report time. -/
  now_epoch : Int
  /-- `time.time() - st.session_state.get("analysis_start_time", ...)`. -/
  processing_time_val : ℚ

/-- The classification-field defaults returned on a JSON-decode failure
(nodes.py lines 96-105). -/
def caDefaultsParseFail (s : ContentState) : ContentState :=
  { s with
    content_type := some "unknown"
    language := some "en"
    topics := some []
    entities := some []
    sentiment := some [("neutral", (1 : ℚ)), ("confidence", (1 : ℚ)/10)]
    summary := some "Analysis failed - JSON parse error"
    key_claims := some []
    writing_style := some "unknown" }

/-- The classification-field defaults returned when retries were exhausted by
rate limiting (nodes.py lines 111-120). -/
def caDefaultsRate (s : ContentState) : ContentState :=
  { s with
    content_type := some "unknown"
    language := some "en"
    topics := some []
    entities := some []
    sentiment := some [("neutral", (1 : ℚ)), ("confidence", (1 : ℚ)/10)]
    summary := some "Analysis paused due to rate limiting"
    key_claims := some []
    writing_style := some "unknown" }

/-- nodes.py lines 42-121, `content_analysis_node` (including its
`@error_boundary` wrapper).  The prompt construction is elided: the LLM
response is supplied by the environment.  An exception that reaches the
decorator is logged and displayed, and the node contributes no state
update. -/
def content_analysis_node (env : Env) (s : ContentState) :
    ContentState × List Event :=
  if env.llmAvailable = false then
    (s, [Event.apiErrorShown "openrouter" "LLM unavailable",
         Event.boundaryErrorShown "content_analysis_node" "LLM unavailable"])
  else
    match (call_llm_with_retry env.ca_attempts env.ca_jitter 4).1 with
    | Except.ok raw =>
      match env.parseAnalysis (extract_json raw) with
      | some d =>
        ({ s with
           content_type := some (d.content_type.getD "unknown")
           language := some (d.language.getD "en")
           topics := some (d.topics.getD [])
           entities := some (d.entities.getD [])
           sentiment := some (d.sentiment.getD
             [("neutral", (1 : ℚ)), ("confidence", (1 : ℚ)/2)])
           summary := some (d.summary.getD "")
           key_claims := some (d.key_claims.getD [])
           writing_style := some (d.writing_style.getD "unknown") }, [])
      | none => (caDefaultsParseFail s, [])
    | Except.error e =>
      if isRateError e then (caDefaultsRate s, [])
      else (s, [Event.boundaryErrorShown "content_analysis_node" e])

/-- nodes.py lines 135-145: derive the single search query — first entity
name, else first two topics joined with a space, else the first 50 characters
of the text. -/
def deriveQuery (s : ContentState) : String :=
  match s.entities.getD [] with
  | e :: _ => e.name
  | [] =>
    match s.topics.getD [] with
    | [] => ((s.text.getD "").take 50)
    | t :: ts => String.intercalate " " ((t :: ts).take 2)

/-- nodes.py lines 178-179: whether any fact-check rating, lowercased,
contains "true" or "correct". -/
def ratingTrueMatch (fcs : List FactCheckResult) : Bool :=
  fcs.any fun fc =>
    strHasSub (lowerStr fc.rating) "true" || strHasSub (lowerStr fc.rating) "correct"

/-- nodes.py line 181: whether any fact-check rating, lowercased, contains
"false" or "incorrect". -/
def ratingFalseMatch (fcs : List FactCheckResult) : Bool :=
  fcs.any fun fc =>
    strHasSub (lowerStr fc.rating) "false" || strHasSub (lowerStr fc.rating) "incorrect"

/-- nodes.py lines 172-184: the verification score — 0.5 base, +0.1 when
articles were found, then on a non-empty fact-check list +0.2 on a
true/correct match else −0.3 on a false/incorrect match, clamped to [0,1]. -/
def scoreFromLookups (articles : List Article) (fcs : List FactCheckResult) : ℚ :=
  let base : ℚ := (1 : ℚ)/2
  let s1 := if articles.isEmpty = false then base + (1 : ℚ)/10 else base
  let s2 :=
    if fcs.isEmpty = false then
      if ratingTrueMatch fcs then s1 + (2 : ℚ)/10
      else if ratingFalseMatch fcs then s1 - (3 : ℚ)/10
      else s1
    else s1
  max 0 (min 1 s2)

/-- nodes.py lines 123-207, `verification_node`.  The two lookups are the
`news` and `factcheck` capabilities of the environment; the events record
which capability calls were issued. -/
def verification_node (env : Env) (s : ContentState) :
    ContentState × List Event :=
  let q := deriveQuery s
  if trimStr q = "" then
    ({ s with
       fact_check_results := some []
       similar_articles := some []
       verification_score := some ((1 : ℚ)/2) }, [])
  else
    let similar := env.news q
    let fcs := env.factcheck q
    ({ s with
       fact_check_results := some (fcs.take 3)
       similar_articles := some (similar.take 3)
       verification_score := some (scoreFromLookups similar fcs) },
     [Event.newsSearch q, Event.factCheckSearch q])

/-- nodes.py lines 238-245: the state update of a successful risk
assessment — `risk_score` is the legacy field `1 - confidence`, and
`misinformation_flags` is emitted empty. -/
def raUpdate (rd : RiskData) (s : ContentState) : ContentState :=
  { s with
    risk_level := some rd.risk_level
    risk_score := some (1 - rd.confidence)
    confidence_score := some rd.confidence
    risk_reason := some rd.reason
    misinformation_flags := some []
    flags_detected := some 0 }

/-- nodes.py lines 209-249, `risk_assessment_node` (including its
`@error_boundary` wrapper).  On a provider failure or a JSON-decode failure,
`ErrorHandler.handle_api_error(e, "openrouter")` logs, displays an
"Openrouter API error" message and re-raises; `error_boundary` then catches,
displays its own message and returns `None`, so the node contributes no state
update and the graph continues. -/
def risk_assessment_node (env : Env) (s : ContentState) :
    ContentState × List Event :=
  if env.llmAvailable = false then
    (s, [Event.apiErrorShown "openrouter" "LLM unavailable",
         Event.boundaryErrorShown "risk_assessment_node" "LLM unavailable"])
  else
    match env.ra_response with
    | Except.error e =>
      (s, [Event.apiErrorShown "openrouter" e,
           Event.boundaryErrorShown "risk_assessment_node" e])
    | Except.ok raw =>
      match env.parseRisk raw with
      | none =>
        (s, [Event.apiErrorShown "openrouter" "JSONDecodeError",
             Event.boundaryErrorShown "risk_assessment_node" "JSONDecodeError"])
      | some rd => (raUpdate rd s, [])

/-- Result of the human-review node: either a state update, or a halt
(`st.stop()`), which suspends the run awaiting an external decision. -/
inductive HumanReviewResult where
  | updated (s : ContentState)
  | halted
deriving DecidableEq

/-- nodes.py lines 256-260: the update recording an external review
decision with the session's reviewer notes. -/
def hrDecisionUpdate (d notes : String) (s : ContentState) : ContentState :=
  { s with
    human_approval := some d
    review_status := some "reviewed"
    reviewer_notes := some notes }

/-- nodes.py line 264: the auto-approval update for low-risk states. -/
def hrAutoUpdate (s : ContentState) : ContentState :=
  { s with
    human_approval := some "auto_approved"
    review_status := some "no_review_needed"
    reviewer_notes := some "" }

/-- nodes.py lines 251-276, `human_review_node`: a pending
`review_decision` in the session is consumed and recorded; otherwise a state
whose `risk_level` reads as "low" (the `.get` default) is auto-approved
without suspension — `force_human_review` is not consulted here — and any
other risk level halts via `st.stop()` after publishing the review prompt. -/
def human_review_node (env : Env) (s : ContentState) :
    HumanReviewResult × List Event :=
  match env.review_decision with
  | some d => (.updated (hrDecisionUpdate d env.session_reviewer_notes s), [])
  | none =>
    if (s.risk_level.getD "low") = "low" then (.updated (hrAutoUpdate s), [])
    else (.halted, [])

/-- nodes.py lines 293-312: the risk-level-derived recommendation block. -/
def riskRecommendations (risk_level : String) : List String :=
  if risk_level = "critical" then
    ["🚨 **URGENT**: Do not publish without thorough fact-checking",
     "🔍 **VERIFY**: All claims with primary sources",
     "⚠️ **LABEL**: Consider adding content warning if published",
     "📊 **MONITOR**: Track engagement and feedback closely"]
  else if risk_level = "high" then
    ["⚠️ **CAUTION**: Additional fact-checking strongly recommended",
     "📋 **REVIEW**: Have second opinion before publication",
     "📊 **TRACK**: Monitor audience response if published"]
  else if risk_level = "medium" then
    ["📋 **STANDARD**: Follow normal editorial review process",
     "✅ **MONITOR**: Regular content performance tracking"]
  else
    ["✅ **CLEAR**: Content appears safe for standard publication"]

/-- nodes.py lines 314-319: the review-derived recommendation inserted at
position 0 for the three recognised decisions ("skipped" and any other value
insert nothing). -/
def insertReviewRec (approval_status : String) (recs : List String) : List String :=
  if approval_status = "rejected" then
    "❌ **DO NOT PUBLISH**: Human reviewer has rejected this content" :: recs
  else if approval_status = "needs_editing" then
    "📝 **EDIT REQUIRED**: Content flagged for revision before publication" :: recs
  else if approval_status = "approved" then
    "✅ **HUMAN APPROVED**: Content has been reviewed and approved" :: recs
  else recs

/-- nodes.py lines 321-327: the content-type advisory appended last. -/
def contentTypeRecs (content_type : String) : List String :=
  if content_type = "news" then
    ["📰 **NEWS**: Verify publication date and source credibility"]
  else if content_type = "research" then
    ["🔬 **RESEARCH**: Check for peer review and methodology"]
  else if content_type = "social_media" then
    ["📱 **SOCIAL**: Higher scrutiny for viral potential"]
  else []

/-- The full recommendation list built by report generation
(nodes.py lines 291-327). -/
def buildRecommendations (risk_level approval_status content_type : String) :
    List String :=
  insertReviewRec approval_status (riskRecommendations risk_level)
    ++ contentTypeRecs content_type

/-- nodes.py line 339: the traffic-light emoji chosen for the risk line. -/
def riskEmoji (risk_level : String) : String :=
  if risk_level = "critical" then "🔴"
  else if risk_level = "high" then "🟡"
  else if risk_level = "low" then "🟢"
  else "🟠"

/-- nodes.py line 341: the verification-score report line — note the `.get`
default is 0, not 0.5. -/
def verificationScoreLine (s : ContentState) : String :=
  "- **Verification Score:** " ++ fmtPercent (s.verification_score.getD 0)

/-- nodes.py lines 333-391: the ordered report sections that are joined with
newlines into `final_report`. -/
def reportSections (env : Env) (s : ContentState) : List String :=
  let risk_level := s.risk_level.getD "unknown"
  let approval_status := s.human_approval.getD "auto_approved"
  let confidence := s.confidence_score.getD 0
  let content_type := s.content_type.getD "unknown"
  let entities_list := ((s.entities.getD []).map (·.name)).take 5
  let topics_list := (s.topics.getD []).take 3
  let flags_list := s.misinformation_flags.getD []
  let head : List String :=
    ["## 📊 **Content Analysis Report**",
     "**Generated:** " ++ env.gen_timestamp,
     "**Analysis ID:** " ++ env.session_id ++ "-" ++ toString env.now_epoch,
     "",
     "### 🎯 **Risk Assessment**",
     "- **Risk Level:** " ++ upperStr risk_level ++ " (" ++ riskEmoji risk_level ++ ")",
     "- **Confidence Score:** " ++ fmtPercent confidence,
     verificationScoreLine s,
     "- **Flags Detected:** " ++ toString flags_list.length,
     "",
     "### 📝 **Content Overview**",
     "- **Type:** " ++ pyTitle content_type,
     "- **Language:** " ++ s.language.getD "Unknown",
     "- **Writing Style:** " ++ pyTitle (s.writing_style.getD "Unknown"),
     "- **Summary:** " ++ s.summary.getD "No summary available",
     ""]
  let entSec : List String :=
    if entities_list.isEmpty then []
    else ["### 🎯 **Key Entities**", "- " ++ String.intercalate ", " entities_list, ""]
  let topSec : List String :=
    if topics_list.isEmpty then []
    else ["### 🏷️ **Topics**", "- " ++ String.intercalate ", " topics_list, ""]
  let flagSec : List String :=
    if flags_list.isEmpty then []
    else "### ⚠️ **Risk Flags**"
      :: (flags_list.map fun f => "- " ++ pyTitle (replaceStr f "_" " ")) ++ [""]
  let similar := s.similar_articles.getD []
  let fchecks := s.fact_check_results.getD []
  let extSec : List String :=
    if similar.isEmpty && fchecks.isEmpty then []
    else ["### 🔍 **External Verification**",
          "- **Related Articles Found:** " ++ toString similar.length,
          "- **Fact-Check Results:** " ++ toString fchecks.length,
          ""]
  let reviewSec : List String :=
    if approval_status = "auto_approved" then []
    else
      let notes :=
        if (s.reviewer_notes.getD "") = "" then env.temp_reviewer_notes
        else s.reviewer_notes.getD ""
      ["### 👤 **Human Review**",
       "- **Status:** " ++ pyTitle (replaceStr approval_status "_" " "),
       "- **Reviewer Notes:** " ++ (if notes = "" then "No additional notes" else notes),
       ""]
  head ++ entSec ++ topSec ++ flagSec ++ extSec ++ reviewSec

/-- nodes.py lines 278-405, `report_generation_node`: builds the
recommendation list and the rendered report, then marks the run complete. -/
def report_generation_node (env : Env) (s : ContentState) :
    ContentState × List Event :=
  let risk_level := s.risk_level.getD "unknown"
  let approval_status := s.human_approval.getD "auto_approved"
  let content_type := s.content_type.getD "unknown"
  ({ s with
     recommendations :=
       some (buildRecommendations risk_level approval_status content_type)
     final_report := some (String.intercalate "\n" (reportSections env s))
     processing_complete := some true
     report_timestamp := some env.gen_timestamp
     processing_time := some env.processing_time_val }, [])

/-- workflow.py lines 76-97, `route_by_risk_level`: critical/high risk or a
forced review routes to human review; medium risk routes there too when the
ambient session preference `analysis_speed` reads "thorough"; everything else
routes to report generation.  The session preference is an explicit argument
because the source reads it from `st.session_state`. -/
def route_by_risk_level (analysis_speed : Option String) (s : ContentState) :
    String :=
  let risk_level := s.risk_level.getD "low"
  let force_review := s.force_human_review.getD false
  if risk_level = "critical" || risk_level = "high" || force_review then
    "human_review"
  else
    let speed := analysis_speed.getD "balanced"
    if risk_level = "medium" && speed = "thorough" then "human_review"
    else "generate_report"

/-- workflow.py lines 100-119, `should_include_verification`: skip when the
user disabled external verification; verify when a high-risk keyword occurs
in the lowercased text or any entities exist; otherwise skip.  Reads nothing
but the state. -/
def should_include_verification (s : ContentState) : String :=
  if (s.include_external_verification.getD true) = false then "risk_assessment"
  else
    let text_lower := lowerStr (s.text.getD "")
    if ["breaking", "exclusive", "leaked", "secret", "shocking"].any
        (fun k => strHasSub text_lower k) then "verification"
    else if (s.entities.getD []).isEmpty = false then "verification"
    else "risk_assessment"

/-- Result of one graph invocation: a completed terminal state, or a run
paused by `st.stop()` at the named stage, carrying the state accumulated so
far.  Events record the capability calls and surfaced errors. -/
inductive RunResult where
  | completed (s : ContentState) (events : List Event)
  | paused (stage : String) (s : ContentState) (events : List Event)
deriving DecidableEq

/-- The graph tail from risk assessment onward (workflow.py lines 150-164):
risk assessment, then `route_by_risk_level` chooses human review or report
generation; human review, when it runs and does not halt, always continues to
report generation. -/
def runFromRiskAssessment (env : Env) (s2 : ContentState) (ev : List Event) :
    RunResult :=
  let r3 := risk_assessment_node env s2
  let ev3 := ev ++ r3.2
  if route_by_risk_level env.analysis_speed r3.1 = "human_review" then
    match human_review_node env r3.1 with
    | (.updated s4, e4) =>
      let r5 := report_generation_node env s4
      .completed r5.1 (ev3 ++ e4 ++ r5.2)
    | (.halted, e4) => .paused "human_review" r3.1 (ev3 ++ e4)
  else
    let r5 := report_generation_node env r3.1
    .completed r5.1 (ev3 ++ r5.2)

/-- The graph tail after content analysis (workflow.py lines 138-148): the
`should_include_verification` conditional edge, the optional verification
stage, then the rest of the graph. -/
def runFromVerifyCheck (env : Env) (s1 : ContentState) (ev : List Event) :
    RunResult :=
  if should_include_verification s1 = "verification" then
    let r2 := verification_node env s1
    runFromRiskAssessment env r2.1 (ev ++ r2.2)
  else runFromRiskAssessment env s1 ev

/-- One invocation of the compiled workflow (workflow.py lines 121-171):
entry at content analysis, then the conditional edges as wired in
`create_workflow`. -/
def runWorkflow (env : Env) (s0 : ContentState) : RunResult :=
  let r1 := content_analysis_node env s0
  runFromVerifyCheck env r1.1 r1.2

/-- The state carried by a run result. -/
def RunResult.state : RunResult → ContentState
  | .completed s _ => s
  | .paused _ s _ => s

/-- Whether the run result is a suspension. -/
def RunResult.isPaused : RunResult → Bool
  | .completed _ _ => false
  | .paused _ _ _ => true

/-- The list of events carried by a run result. -/
def RunResult.events : RunResult → List Event
  | .completed _ ev => ev
  | .paused _ _ ev => ev

/-- A concrete benign environment used to evaluate the pipeline: the LLM is
available, content analysis parses, risk assessment yields a confident "low",
both lookups return nothing, and no review decision is pending. -/
def testEnv : Env where
  llmAvailable := true
  ca_attempts := fun _ => .ok "{}"
  ca_jitter := fun _ => 0
  parseAnalysis := fun _ =>
    some ⟨some "news", some "en", some ["economy"], some [],
          some [("neutral", 1)], some "a summary", some [], some "formal"⟩
  news := fun _ => []
  factcheck := fun _ => []
  ra_response := Except.ok "riskraw"
  parseRisk := fun _ => some ⟨"low", (9 : ℚ)/10, "benign"⟩
  review_decision := none
  session_reviewer_notes := ""
  analysis_speed := none
  temp_reviewer_notes := ""
  session_id := "sess"
  gen_timestamp := "2026-01-01 00:00:00"
  now_epoch := 1767225600
  processing_time_val := 1

-- Preservation lemmas: fields a node never writes survive it unchanged.

/-- Content analysis never writes the review, risk, routing or output
fields. -/
theorem content_analysis_preserves (env : Env) (s : ContentState) :
    ((content_analysis_node env s).1).force_human_review = s.force_human_review ∧
    ((content_analysis_node env s).1).include_external_verification
      = s.include_external_verification ∧
    ((content_analysis_node env s).1).risk_level = s.risk_level ∧
    ((content_analysis_node env s).1).human_approval = s.human_approval ∧
    ((content_analysis_node env s).1).final_report = s.final_report ∧
    ((content_analysis_node env s).1).processing_complete = s.processing_complete := by
  unfold content_analysis_node caDefaultsParseFail caDefaultsRate
  repeat' split
  all_goals exact ⟨rfl, rfl, rfl, rfl, rfl, rfl⟩

/-- Verification never writes the review, risk, routing or output fields. -/
theorem verification_preserves (env : Env) (s : ContentState) :
    ((verification_node env s).1).force_human_review = s.force_human_review ∧
    ((verification_node env s).1).risk_level = s.risk_level ∧
    ((verification_node env s).1).human_approval = s.human_approval ∧
    ((verification_node env s).1).final_report = s.final_report ∧
    ((verification_node env s).1).processing_complete = s.processing_complete := by
  unfold verification_node
  dsimp only
  split
  all_goals exact ⟨rfl, rfl, rfl, rfl, rfl⟩

/-- A successful risk assessment applies exactly `raUpdate`. -/
theorem risk_assessment_ok (env : Env) (s : ContentState) (raw : String)
    (rd : RiskData) (hllm : env.llmAvailable = true)
    (hra : env.ra_response = Except.ok raw)
    (hparse : env.parseRisk raw = some rd) :
    risk_assessment_node env s = (raUpdate rd s, []) := by
  unfold risk_assessment_node
  rw [hllm, hra]
  simp [hparse]

/-- A failing risk assessment (provider error or JSON-decode failure, with
the LLM available) surfaces an API error naming "openrouter", is caught by
the error boundary, and leaves the state untouched. -/
theorem risk_assessment_fails (env : Env) (s : ContentState)
    (hllm : env.llmAvailable = true)
    (hf : (∃ e, env.ra_response = Except.error e) ∨
          (∃ raw, env.ra_response = Except.ok raw ∧ env.parseRisk raw = none)) :
    ∃ msg, risk_assessment_node env s =
      (s, [Event.apiErrorShown "openrouter" msg,
           Event.boundaryErrorShown "risk_assessment_node" msg]) := by
  unfold risk_assessment_node
  rw [hllm]
  rcases hf with ⟨e, he⟩ | ⟨raw, hraw, hp⟩
  · exact ⟨e, by rw [he]; simp⟩
  · exact ⟨"JSONDecodeError", by rw [hraw]; simp [hp]⟩

/-- Any state whose risk level reads "critical" or "high", or whose forced
review flag is set, is routed to human review. -/
theorem route_to_human_review (speed : Option String) (s : ContentState)
    (h : s.risk_level.getD "low" = "critical" ∨ s.risk_level.getD "low" = "high" ∨
         s.force_human_review.getD false = true) :
    route_by_risk_level speed s = "human_review" := by
  unfold route_by_risk_level
  rcases h with h | h | h <;> simp [h]

/-- A state whose risk level reads "low" with the forced-review flag clear is
routed straight to report generation, whatever the session preference. -/
theorem route_low_to_report (speed : Option String) (s : ContentState)
    (hr : s.risk_level.getD "low" = "low")
    (hf : s.force_human_review.getD false = false) :
    route_by_risk_level speed s = "generate_report" := by
  unfold route_by_risk_level
  rw [hr, hf]
  simp

/-- Every run reaches the risk-assessment stage with the caller's input
fields intact and the review/output fields still absent: the graph prefix
(content analysis, the verification conditional edge, optionally
verification) writes none of them. -/
theorem run_reaches_risk_assessment (env : Env) (t u : String)
    (force incl : Bool) :
    ∃ s2 ev, runWorkflow env (initialState t u force incl)
        = runFromRiskAssessment env s2 ev ∧
      s2.force_human_review = some force ∧
      s2.risk_level = none ∧ s2.human_approval = none ∧
      s2.final_report = none ∧ s2.processing_complete = none := by
  obtain ⟨h1, _, h3, h4, h5, h6⟩ :=
    content_analysis_preserves env (initialState t u force incl)
  by_cases hvc :
      should_include_verification
        (content_analysis_node env (initialState t u force incl)).1
        = "verification"
  · obtain ⟨v1, v2, v3, v4, v5⟩ :=
      verification_preserves env
        (content_analysis_node env (initialState t u force incl)).1
    refine ⟨(verification_node env
              (content_analysis_node env (initialState t u force incl)).1).1,
            (content_analysis_node env (initialState t u force incl)).2 ++
              (verification_node env
                (content_analysis_node env (initialState t u force incl)).1).2,
            ?_, ?_, ?_, ?_, ?_, ?_⟩
    · simp only [runWorkflow, runFromVerifyCheck]
      rw [if_pos hvc]
    · rw [v1, h1]; rfl
    · rw [v2, h3]; rfl
    · rw [v3, h4]; rfl
    · rw [v4, h5]; rfl
    · rw [v5, h6]; rfl
  · refine ⟨(content_analysis_node env (initialState t u force incl)).1,
            (content_analysis_node env (initialState t u force incl)).2,
            ?_, ?_, ?_, ?_, ?_, ?_⟩
    · simp only [runWorkflow, runFromVerifyCheck]
      rw [if_neg hvc]
    · rw [h1]; rfl
    · rw [h3]; rfl
    · rw [h4]; rfl
    · rw [h5]; rfl
    · rw [h6]; rfl

/-- C1 (amended): for every run whose risk assessment yields risk_level
"high" or "critical", or whose force_human_review flag is set while the
assessed risk_level is not "low", an invocation with no pending decision
suspends exactly once, at the human-review stage, before report generation
is reached (the paused state has no final report), and a re-invocation
carrying an external decision completes without suspending again, recording
that decision.  (The original claim also promised suspension for
force_human_review == true with risk_level "low"; human_review_node
auto-approves that case without suspending — see the counterexample.) -/
theorem claim_C1 (env : Env) (t u : String) (force incl : Bool)
    (raw : String) (rd : RiskData)
    (hdec : env.review_decision = none)
    (hllm : env.llmAvailable = true)
    (hra : env.ra_response = Except.ok raw)
    (hparse : env.parseRisk raw = some rd)
    (hrisk : rd.risk_level = "high" ∨ rd.risk_level = "critical" ∨
             (force = true ∧ rd.risk_level ≠ "low")) :
    (∃ s ev, runWorkflow env (initialState t u force incl) =
        RunResult.paused "human_review" s ev ∧
      s.final_report = none ∧ s.processing_complete = none ∧
      s.risk_level = some rd.risk_level) ∧
    (∀ d notes, ∃ s ev,
      runWorkflow
          { env with review_decision := some d, session_reviewer_notes := notes }
          (initialState t u force incl) = RunResult.completed s ev ∧
      s.human_approval = some d ∧ s.processing_complete = some true) := by
  have hne : rd.risk_level ≠ "low" := by
    rcases hrisk with h | h | h
    · rw [h]; decide
    · rw [h]; decide
    · exact h.2
  constructor
  · obtain ⟨s2, ev, hw, hforce2, hrl2, happ2, hfr2, hpc2⟩ :=
      run_reaches_risk_assessment env t u force incl
    rw [hw]
    unfold runFromRiskAssessment
    rw [risk_assessment_ok env s2 raw rd hllm hra hparse]
    dsimp only
    have hroute : route_by_risk_level env.analysis_speed (raUpdate rd s2)
        = "human_review" := by
      apply route_to_human_review
      rcases hrisk with h | h | h
      · exact Or.inr (Or.inl h)
      · exact Or.inl h
      · refine Or.inr (Or.inr ?_)
        show s2.force_human_review.getD false = true
        rw [hforce2, h.1]; rfl
    rw [hroute, if_pos rfl]
    have hhr : human_review_node env (raUpdate rd s2)
        = (HumanReviewResult.halted, []) := by
      unfold human_review_node
      rw [hdec]
      exact if_neg hne
    rw [hhr]
    exact ⟨raUpdate rd s2, _, rfl, hfr2, hpc2, rfl⟩
  · intro d notes
    obtain ⟨s2, ev, hw, hforce2, hrl2, happ2, hfr2, hpc2⟩ :=
      run_reaches_risk_assessment
        { env with review_decision := some d, session_reviewer_notes := notes }
        t u force incl
    rw [hw]
    unfold runFromRiskAssessment
    rw [risk_assessment_ok
          { env with review_decision := some d, session_reviewer_notes := notes }
          s2 raw rd hllm hra hparse]
    dsimp only
    have hroute : route_by_risk_level
        ({ env with review_decision := some d,
                    session_reviewer_notes := notes } : Env).analysis_speed
        (raUpdate rd s2) = "human_review" := by
      apply route_to_human_review
      rcases hrisk with h | h | h
      · exact Or.inr (Or.inl h)
      · exact Or.inl h
      · refine Or.inr (Or.inr ?_)
        show s2.force_human_review.getD false = true
        rw [hforce2, h.1]; rfl
    rw [hroute, if_pos rfl]
    have hhr : human_review_node
        { env with review_decision := some d, session_reviewer_notes := notes }
        (raUpdate rd s2)
        = (HumanReviewResult.updated
            (hrDecisionUpdate d notes (raUpdate rd s2)), []) := rfl
    rw [hhr]
    exact ⟨_, _, rfl, rfl, rfl⟩

/-- The benign environment with the risk assessment answering "high". -/
def testEnvHigh : Env :=
  { testEnv with parseRisk := fun _ => some ⟨"high", (9 : ℚ)/10, "risky"⟩ }

/-- C1 witness: a concrete high-risk run pauses at human review with no
report produced. -/
theorem claim_C1_witness :
    ∃ s ev, runWorkflow testEnvHigh (initialState "txt" "" false true) =
        RunResult.paused "human_review" s ev ∧
      s.final_report = none ∧ s.processing_complete = none ∧
      s.risk_level = some "high" :=
  (claim_C1 testEnvHigh "txt" "" false true "riskraw"
    ⟨"high", (9 : ℚ)/10, "risky"⟩ rfl rfl rfl rfl (Or.inl rfl)).1

/-- C1 counterexample: a run with force_human_review == true whose risk
assessment yields "low" is routed to the human-review node but does not
suspend at all — human_review_node auto-approves low-risk states without
consulting force_human_review — contradicting the claim that every
force_human_review run suspends exactly once. -/
theorem claim_C1_counterexample :
    (initialState "hello" "" true true).force_human_review = some true ∧
    (runWorkflow testEnv (initialState "hello" "" true true)).isPaused = false ∧
    (runWorkflow testEnv
        (initialState "hello" "" true true)).state.human_approval
      = some "auto_approved" := by
  refine ⟨rfl, ?_, ?_⟩ <;> decide

/-- C7 (amended): for every run with non-empty text, force_human_review ==
false and an assessed risk_level of "low", the run never suspends (it
completes in one invocation), but the terminal State does not contain
human_approval at all — the human-review stage is bypassed entirely, so the
key is never written; consumers read it through a default of
"auto_approved". -/
theorem claim_C7 (env : Env) (t u : String) (incl : Bool) (raw : String)
    (rd : RiskData)
    (ht : t ≠ "")
    (hllm : env.llmAvailable = true)
    (hra : env.ra_response = Except.ok raw)
    (hparse : env.parseRisk raw = some rd)
    (hlow : rd.risk_level = "low") :
    ∃ s ev, runWorkflow env (initialState t u false incl)
        = RunResult.completed s ev ∧
      s.human_approval = none ∧ s.processing_complete = some true := by
  obtain ⟨s2, ev, hw, hforce2, hrl2, happ2, hfr2, hpc2⟩ :=
    run_reaches_risk_assessment env t u false incl
  rw [hw]
  unfold runFromRiskAssessment
  rw [risk_assessment_ok env s2 raw rd hllm hra hparse]
  dsimp only
  have hroute : route_by_risk_level env.analysis_speed (raUpdate rd s2)
      = "generate_report" := by
    apply route_low_to_report
    · exact hlow
    · show s2.force_human_review.getD false = false
      rw [hforce2]; rfl
  rw [hroute, if_neg (by decide : ¬ ("generate_report" = "human_review"))]
  exact ⟨_, _, rfl, happ2, rfl⟩

/-- C7 witness: a concrete low-risk, unforced run completes without
suspension and without a human_approval key. -/
theorem claim_C7_witness :
    ∃ s ev, runWorkflow testEnv (initialState "hello" "" false true)
        = RunResult.completed s ev ∧
      s.human_approval = none ∧ s.processing_complete = some true :=
  claim_C7 testEnv "hello" "" true "riskraw" ⟨"low", (9 : ℚ)/10, "benign"⟩
    (by decide) rfl rfl rfl rfl

/-- C7 counterexample: in a concrete low-risk unforced run the terminal
state's human_approval is absent (`none`), not equal to "auto_approved" —
the claim's asserted terminal value never appears in the State. -/
theorem claim_C7_counterexample :
    (runWorkflow testEnv (initialState "hello" "" false true)).isPaused
      = false ∧
    (runWorkflow testEnv
        (initialState "hello" "" false true)).state.human_approval = none ∧
    (runWorkflow testEnv
        (initialState "hello" "" false true)).state.human_approval
      ≠ some "auto_approved" := by
  refine ⟨?_, ?_, ?_⟩ <;> decide

/-- C3 (amended): in `call_llm_with_retry`, a failure whose error text
contains "429" or "rate" is retried up to 4 attempts with exponential
backoff — the waits are `min(2·2^attempt + jitter, 60)`, i.e. base 2s,
jitter at most 1s, capped at 60s — while every other failure is retried up
to three more times, 4 attempts in total, each after a 1-second pause, and
only then surfaced to the caller.  (The original claim said non-rate-limit
failures are retried exactly once; the loop retries them on every attempt
but the last, so three 1-second retries precede the raise.) -/
theorem claim_C3 (e : Nat → String) (jit : Nat → ℚ)
    (hj : ∀ i, 0 ≤ jit i ∧ jit i ≤ 1) :
    ((∀ i, isRateError (e i) = true) →
      call_llm_with_retry (fun i => LLMAttempt.exn (e i)) jit 4 =
        (Except.error (e 3),
         [backoffWait 0 (jit 0), backoffWait 1 (jit 1), backoffWait 2 (jit 2)]) ∧
      (∀ i, backoffWait i (jit i) ≤ 60) ∧
      (∀ i, i < 3 → backoffWait i (jit i) = 2 ^ i * 2 + jit i)) ∧
    ((∀ i, isRateError (e i) = false) →
      call_llm_with_retry (fun i => LLMAttempt.exn (e i)) jit 4 =
        (Except.error (e 3), [1, 1, 1])) := by
  refine ⟨fun hr => ⟨?_, ?_, ?_⟩, fun hnr => ?_⟩
  · show retryLoop (fun i => LLMAttempt.exn (e i)) jit 4 0 = _
    simp [retryLoop, attemptResult, hr 0, hr 1, hr 2, hr 3]
  · intro i
    exact min_le_right _ _
  · intro i hi
    have := (hj i).2
    unfold backoffWait
    apply min_eq_left
    interval_cases i <;> linarith
  · show retryLoop (fun i => LLMAttempt.exn (e i)) jit 4 0 = _
    simp [retryLoop, attemptResult, hnr 0, hnr 1, hnr 2, hnr 3]

/-- C3 witness: four rate-limited attempts with zero jitter produce the
backoff waits and surface the last error. -/
theorem claim_C3_witness :
    call_llm_with_retry (fun i => LLMAttempt.exn ((fun _ => "HTTP 429") i))
        (fun _ => (0 : ℚ)) 4 =
      (Except.error "HTTP 429",
       [backoffWait 0 0, backoffWait 1 0, backoffWait 2 0]) :=
  ((claim_C3 (fun _ => "HTTP 429") (fun _ => 0)
      (fun _ => ⟨le_refl 0, zero_le_one⟩)).1 (fun _ => by decide)).1

/-- C3 counterexample: a persistent non-rate-limit failure ("boom") is
retried after three 1-second pauses — not exactly once as claimed — before
the error is surfaced on the 4th attempt. -/
theorem claim_C3_counterexample :
    call_llm_with_retry (fun _ => LLMAttempt.exn "boom") (fun _ => 0) 4 =
      (Except.error "boom", [1, 1, 1]) ∧
    ([(1 : ℚ), 1, 1]).length ≠ 1 :=
  ⟨rfl, by decide⟩

/-- The benign environment with one related article and one fact-check
record rated "Mostly True". -/
def testEnvVerify : Env :=
  { testEnv with
    news := fun _ => [⟨"related"⟩]
    factcheck := fun _ => [⟨"claim text", "someone", "Mostly True", "http://fc"⟩] }

/-- A sample entity. -/
def entAcme : Entity := ⟨"Acme", "ORG", 1⟩

/-- A state carrying one entity, as left by content analysis. -/
def sC2 : ContentState :=
  { emptyState with text := some "x", entities := some [entAcme] }

/-- A true/correct rating match implies the fact-check list is non-empty. -/
theorem ratingTrue_nonempty (fcs : List FactCheckResult)
    (h : ratingTrueMatch fcs = true) : fcs.isEmpty = false := by
  cases fcs with
  | nil => simp [ratingTrueMatch] at h
  | cons a l => rfl

/-- A false/incorrect rating match implies the fact-check list is
non-empty. -/
theorem ratingFalse_nonempty (fcs : List FactCheckResult)
    (h : ratingFalseMatch fcs = true) : fcs.isEmpty = false := by
  cases fcs with
  | nil => simp [ratingFalseMatch] at h
  | cons a l => rfl

/-- C2 (amended): when similar articles are found and some fact-check rating
matches true/correct or false/incorrect, the verification score applies the
+0.1 article bonus AND exactly one fact-check adjustment — +0.2 when any
rating contains "true"/"correct", else −0.3 when any contains
"false"/"incorrect" (the two fact-check branches are mutually exclusive,
true-branch first) — starting from 0.5 and clamping to [0,1].  (The
original claim said only the first matching of the three rules applies; the
article bonus in fact stacks with the fact-check adjustment — see the
counterexample.) -/
theorem claim_C2 (env : Env) (s : ContentState) (ent : Entity)
    (rest : List Entity)
    (hent : s.entities = some (ent :: rest))
    (hq : trimStr ent.name ≠ "")
    (harts : (env.news ent.name).isEmpty = false)
    (hfc : ratingTrueMatch (env.factcheck ent.name) = true ∨
           ratingFalseMatch (env.factcheck ent.name) = true) :
    (verification_node env s).1.verification_score =
      some (max 0 (min 1
        (if ratingTrueMatch (env.factcheck ent.name) = true then
          (1 : ℚ)/2 + 1/10 + 2/10
         else (1 : ℚ)/2 + 1/10 - 3/10))) := by
  have hdq : deriveQuery s = ent.name := by simp [deriveQuery, hent]
  have hfcne : (env.factcheck ent.name).isEmpty = false := by
    rcases hfc with h | h
    · exact ratingTrue_nonempty _ h
    · exact ratingFalse_nonempty _ h
  unfold verification_node
  dsimp only
  rw [hdq, if_neg hq]
  show some (scoreFromLookups (env.news ent.name) (env.factcheck ent.name)) = _
  congr 1
  unfold scoreFromLookups
  dsimp only
  rw [if_pos harts, if_pos hfcne]
  by_cases htm : ratingTrueMatch (env.factcheck ent.name) = true
  · rw [if_pos htm, if_pos htm]
  · rcases hfc with h | h
    · exact absurd h htm
    · rw [if_neg htm, if_pos h, if_neg htm]

/-- C2 witness: with one article and a "Mostly True" rating the score is
0.5 + 0.1 + 0.2 before clamping. -/
theorem claim_C2_witness :
    trimStr entAcme.name ≠ "" ∧
    ratingTrueMatch (testEnvVerify.factcheck entAcme.name) = true ∧
    (verification_node testEnvVerify sC2).1.verification_score =
      some (max 0 (min 1
        (if ratingTrueMatch (testEnvVerify.factcheck entAcme.name) = true then
          (1 : ℚ)/2 + 1/10 + 2/10
         else (1 : ℚ)/2 + 1/10 - 3/10))) :=
  ⟨by decide, by decide,
   claim_C2 testEnvVerify sC2 entAcme [] rfl (by decide) rfl
     (Or.inl (by decide))⟩

/-- C2 counterexample: articles found plus a "Mostly True" fact-check rating
yield 0.8 = 0.5 + 0.1 + 0.2 — two adjustment rules fire, not only the first
matching one (which would give 0.6). -/
theorem claim_C2_counterexample :
    (verification_node testEnvVerify sC2).1.verification_score
      = some ((4 : ℚ)/5) ∧
    ((4 : ℚ)/5) ≠ (1 : ℚ)/2 + 1/10 ∧
    ((4 : ℚ)/5) = ((1 : ℚ)/2 + 1/10) + 2/10 := by
  refine ⟨?_, by norm_num, by norm_num⟩
  have h1 : (verification_node testEnvVerify sC2).1.verification_score
      = some (scoreFromLookups [⟨"related"⟩]
          [⟨"claim text", "someone", "Mostly True", "http://fc"⟩]) := rfl
  rw [h1]
  congr 1
  have ht : ratingTrueMatch
      [⟨"claim text", "someone", "Mostly True", "http://fc"⟩] = true := by decide
  unfold scoreFromLookups
  dsimp only
  norm_num [ht, List.isEmpty_cons, min_def, max_def]

/-- C4 (amended): with no entities and no topics the verification stage
derives its query from the first 50 characters of the text; it returns the
neutral result (score 0.5, empty lists) without issuing any capability call
only when that query is empty or whitespace, and otherwise issues both the
news and the fact-check lookup with that query.  (The original claim said a
50-character text with empty entities/topics triggers no capability call;
a non-whitespace text does trigger both calls — see the counterexample.) -/
theorem claim_C4 (env : Env) (s : ContentState)
    (hent : s.entities.getD [] = [])
    (htop : s.topics.getD [] = []) :
    (trimStr ((s.text.getD "").take 50) = "" →
      verification_node env s =
        ({ s with fact_check_results := some []
                  similar_articles := some []
                  verification_score := some ((1 : ℚ)/2) }, [])) ∧
    (trimStr ((s.text.getD "").take 50) ≠ "" →
      (verification_node env s).2 =
        [Event.newsSearch ((s.text.getD "").take 50),
         Event.factCheckSearch ((s.text.getD "").take 50)]) := by
  have hdq : deriveQuery s = (s.text.getD "").take 50 := by
    unfold deriveQuery
    rw [hent, htop]
  constructor
  · intro h
    unfold verification_node
    dsimp only
    rw [hdq, if_pos h]
  · intro h
    unfold verification_node
    dsimp only
    rw [hdq, if_neg h]

/-- A 50-character text. -/
def fifty : String := "abcdefghijabcdefghijabcdefghijabcdefghijabcdefghij"

/-- The input state of spec Scenario B: 50-character text, empty entities
and topics. -/
def sC4 : ContentState :=
  { initialState fifty "" false true with
    entities := some [], topics := some [] }

/-- C4 witness: a non-whitespace 50-character text with empty entities and
topics makes the verification stage issue both capability calls. -/
theorem claim_C4_witness :
    trimStr ((sC4.text.getD "").take 50) ≠ "" ∧
    (verification_node testEnv sC4).2 =
      [Event.newsSearch ((sC4.text.getD "").take 50),
       Event.factCheckSearch ((sC4.text.getD "").take 50)] :=
  ⟨by decide, (claim_C4 testEnv sC4 rfl rfl).2 (by decide)⟩

/-- C4 counterexample: for a 50-character text with entities == [] and
topics == [], the verification stage does attempt capability calls (a news
search and a fact-check search with the text as query); the claimed
"without attempting any capability call" fails even though the returned
score is 0.5 with empty lists when the lookups find nothing. -/
theorem claim_C4_counterexample :
    (sC4.text.getD "").length = 50 ∧ sC4.entities = some [] ∧
    sC4.topics = some [] ∧
    (verification_node testEnv sC4).2 =
      [Event.newsSearch fifty, Event.factCheckSearch fifty] ∧
    (verification_node testEnv sC4).2 ≠ [] ∧
    (verification_node testEnv sC4).1.verification_score = some ((1 : ℚ)/2) := by
  refine ⟨by decide, rfl, rfl, by decide, by decide, ?_⟩
  have h1 : (verification_node testEnv sC4).1.verification_score
      = some (scoreFromLookups [] []) := rfl
  have h2 : scoreFromLookups [] [] = max 0 (min 1 ((1 : ℚ)/2)) := rfl
  rw [h1, h2, min_eq_right (by norm_num), max_eq_right (by norm_num)]

/-- The benign environment with a risk-assessment JSON-decode failure. -/
def envC5 : Env := { testEnv with parseRisk := fun _ => none }

/-- C5 (amended): when the risk-assessment LLM call fails or its response
fails to JSON-decode, the stage raises and an API-error naming the failing
capability ("openrouter") is surfaced (logged and displayed) — but the
`error_boundary` decorator catches the exception and returns no state
update, so the run does not abort: it continues with the risk fields unset
and report generation still produces a complete report.  (The original
claim said the run aborts and no partial report is produced; the error
boundary prevents the abort — see the counterexample.) -/
theorem claim_C5 (env : Env) (t u : String) (force incl : Bool)
    (hllm : env.llmAvailable = true)
    (hf : (∃ e, env.ra_response = Except.error e) ∨
          (∃ raw, env.ra_response = Except.ok raw ∧ env.parseRisk raw = none)) :
    ∃ s ev msg,
      runWorkflow env (initialState t u force incl)
        = RunResult.completed s ev ∧
      s.risk_level = none ∧ s.processing_complete = some true ∧
      s.final_report ≠ none ∧
      Event.apiErrorShown "openrouter" msg ∈ ev ∧
      Event.boundaryErrorShown "risk_assessment_node" msg ∈ ev := by
  obtain ⟨s2, ev0, hw, hforce2, hrl2, happ2, hfr2, hpc2⟩ :=
    run_reaches_risk_assessment env t u force incl
  obtain ⟨msg, hmsg⟩ := risk_assessment_fails env s2 hllm hf
  rw [hw]
  unfold runFromRiskAssessment
  rw [hmsg]
  dsimp only
  have hlow : s2.risk_level.getD "low" = "low" := by rw [hrl2]; rfl
  by_cases hforce : force = true
  · have hroute : route_by_risk_level env.analysis_speed s2 = "human_review" := by
      apply route_to_human_review
      refine Or.inr (Or.inr ?_)
      rw [hforce2, hforce]; rfl
    rw [hroute, if_pos rfl]
    cases hdec : env.review_decision with
    | some d =>
      have hhr : human_review_node env s2 =
          (HumanReviewResult.updated
            (hrDecisionUpdate d env.session_reviewer_notes s2), []) := by
        unfold human_review_node
        rw [hdec]
      rw [hhr]
      refine ⟨_, _, msg, rfl, hrl2, rfl, Option.some_ne_none _, ?_, ?_⟩ <;>
        simp [List.mem_append]
    | none =>
      have hhr : human_review_node env s2 =
          (HumanReviewResult.updated (hrAutoUpdate s2), []) := by
        unfold human_review_node
        rw [hdec, if_pos hlow]
      rw [hhr]
      refine ⟨_, _, msg, rfl, hrl2, rfl, Option.some_ne_none _, ?_, ?_⟩ <;>
        simp [List.mem_append]
  · have hroute : route_by_risk_level env.analysis_speed s2
        = "generate_report" := by
      apply route_low_to_report _ _ hlow
      rw [hforce2]
      simp at hforce
      rw [hforce]; rfl
    rw [hroute,
        if_neg (by decide : ¬ ("generate_report" = "human_review"))]
    refine ⟨_, _, msg, rfl, hrl2, rfl, Option.some_ne_none _, ?_, ?_⟩ <;>
      simp [List.mem_append]

/-- C5 witness: a concrete run whose risk response fails to decode surfaces
the openrouter API error yet completes with a report. -/
theorem claim_C5_witness :
    ∃ s ev msg,
      runWorkflow envC5 (initialState "hello" "" false true)
        = RunResult.completed s ev ∧
      s.risk_level = none ∧ s.processing_complete = some true ∧
      s.final_report ≠ none ∧
      Event.apiErrorShown "openrouter" msg ∈ ev ∧
      Event.boundaryErrorShown "risk_assessment_node" msg ∈ ev :=
  claim_C5 envC5 "hello" "" false true rfl (Or.inr ⟨"riskraw", rfl, rfl⟩)

/-- C5 counterexample: with a risk-assessment JSON-decode failure the run
does not abort — it completes, `processing_complete` is true and a
(partial) final report exists, contradicting "the run aborts and no partial
report is produced"; the API error naming openrouter is surfaced, as the
claim says. -/
theorem claim_C5_counterexample :
    (runWorkflow envC5 (initialState "hello" "" false true)).isPaused
      = false ∧
    (runWorkflow envC5
        (initialState "hello" "" false true)).state.processing_complete
      = some true ∧
    (runWorkflow envC5 (initialState "hello" "" false true)).state.risk_level
      = none ∧
    (runWorkflow envC5
        (initialState "hello" "" false true)).state.final_report ≠ none ∧
    Event.apiErrorShown "openrouter" "JSONDecodeError"
      ∈ (runWorkflow envC5 (initialState "hello" "" false true)).events := by
  refine ⟨by decide, by decide, by decide, by decide, by decide⟩

/-- The review-derived recommendation inserted at the head of the list for
each recognised decision (nodes.py lines 314-319). -/
def reviewRecFor (a : String) : String :=
  if a = "rejected" then
    "❌ **DO NOT PUBLISH**: Human reviewer has rejected this content"
  else if a = "needs_editing" then
    "📝 **EDIT REQUIRED**: Content flagged for revision before publication"
  else "✅ **HUMAN APPROVED**: Content has been reviewed and approved"

/-- C6 (amended): for every terminal State whose human_approval is
"rejected", "needs_editing" or "approved", recommendations[0] is the
human-review-derived recommendation for that decision, placed ahead of the
risk-level-derived block.  (The original claim covered every value other
than "auto_approved"; for "skipped" no review recommendation is inserted
and the risk-derived one stays at the head — see the counterexample.) -/
theorem claim_C6 (env : Env) (s : ContentState) (a : String)
    (ha : s.human_approval = some a)
    (hmem : a = "rejected" ∨ a = "needs_editing" ∨ a = "approved") :
    ((report_generation_node env s).1).recommendations =
      some (reviewRecFor a ::
        (riskRecommendations (s.risk_level.getD "unknown")
          ++ contentTypeRecs (s.content_type.getD "unknown"))) := by
  have h1 : ((report_generation_node env s).1).recommendations
      = some (buildRecommendations (s.risk_level.getD "unknown") a
          (s.content_type.getD "unknown")) := by
    unfold report_generation_node
    dsimp only
    rw [ha]
    rfl
  rw [h1]
  rcases hmem with h | h | h <;> subst h <;> rfl

/-- A rejected high-risk state at report time. -/
def sC6w : ContentState :=
  { emptyState with human_approval := some "rejected",
                    risk_level := some "high" }

/-- C6 witness: a rejected review heads the recommendation list ahead of the
high-risk block. -/
theorem claim_C6_witness :
    ((report_generation_node testEnv sC6w).1).recommendations =
      some (reviewRecFor "rejected" ::
        (riskRecommendations "high" ++ contentTypeRecs "unknown")) :=
  claim_C6 testEnv sC6w "rejected" rfl (Or.inl rfl)

/-- A skipped-review low-risk state at report time. -/
def sC6 : ContentState :=
  { emptyState with human_approval := some "skipped",
                    risk_level := some "low" }

/-- C6 counterexample: with human_approval == "skipped" (≠ auto_approved)
no review-derived recommendation is inserted: recommendations[0] is the
risk-level-derived "CLEAR" advisory, not a human-review-derived one. -/
theorem claim_C6_counterexample :
    sC6.human_approval = some "skipped" ∧ "skipped" ≠ "auto_approved" ∧
    ((report_generation_node testEnv sC6).1).recommendations =
      some ["✅ **CLEAR**: Content appears safe for standard publication"] ∧
    "✅ **CLEAR**: Content appears safe for standard publication"
      ≠ "❌ **DO NOT PUBLISH**: Human reviewer has rejected this content" ∧
    "✅ **CLEAR**: Content appears safe for standard publication"
      ≠ "📝 **EDIT REQUIRED**: Content flagged for revision before publication" ∧
    "✅ **CLEAR**: Content appears safe for standard publication"
      ≠ "✅ **HUMAN APPROVED**: Content has been reviewed and approved" := by
  refine ⟨rfl, by decide, by decide, by decide, by decide, by decide⟩

/-- C8 (amended): when verification_score is absent from the State, the
report generation stage reads it with a default of 0 — not 0.5 — and the
rendered report displays "0.0%" as the verification score.  (The original
claim said downstream consumers treat an absent score as 0.5 and that the
report displays 0.5; the report's `.get` default is 0 — see the
counterexample.) -/
theorem claim_C8 (env : Env) (s : ContentState)
    (h : s.verification_score = none) :
    s.verification_score.getD 0 = 0 ∧
    fmtPercent (s.verification_score.getD 0) = "0.0%" ∧
    verificationScoreLine s = "- **Verification Score:** 0.0%" ∧
    verificationScoreLine s ∈ reportSections env s := by
  have h0 : s.verification_score.getD 0 = 0 := by rw [h]; rfl
  have hp : fmtPercent ((0 : ℚ)) = "0.0%" := by
    unfold fmtPercent
    dsimp only
    rw [show ((0 : ℚ) * 1000) = 0 by norm_num, Int.floor_zero]
    rfl
  refine ⟨h0, by rw [h0]; exact hp, ?_, ?_⟩
  · unfold verificationScoreLine
    rw [h0, hp]
    rfl
  · unfold reportSections
    dsimp only
    simp [List.mem_append]

/-- C8 witness: a state with no verification_score renders the 0.0% line in
its report sections. -/
theorem claim_C8_witness :
    emptyState.verification_score.getD 0 = 0 ∧
    fmtPercent (emptyState.verification_score.getD 0) = "0.0%" ∧
    verificationScoreLine emptyState = "- **Verification Score:** 0.0%" ∧
    verificationScoreLine emptyState ∈ reportSections testEnv emptyState :=
  claim_C8 testEnv emptyState rfl

/-- C8 counterexample: when verification_score is absent the report line
reads "0.0%", not the "50.0%" that a 0.5 neutral default would produce. -/
theorem claim_C8_counterexample :
    emptyState.verification_score = none ∧
    verificationScoreLine emptyState = "- **Verification Score:** 0.0%" ∧
    fmtPercent ((1 : ℚ)/2) = "50.0%" ∧
    verificationScoreLine emptyState ≠ "- **Verification Score:** 50.0%" := by
  have hp : fmtPercent ((1 : ℚ)/2) = "50.0%" := by
    unfold fmtPercent
    dsimp only
    rw [show ((1 : ℚ)/2 * 1000) = ((500 : Int) : ℚ) by norm_num,
        Int.floor_intCast]
    rfl
  have hl : verificationScoreLine emptyState
      = "- **Verification Score:** 0.0%" := by
    unfold verificationScoreLine
    show "- **Verification Score:** " ++ fmtPercent 0 = _
    have hp0 : fmtPercent ((0 : ℚ)) = "0.0%" := by
      unfold fmtPercent
      dsimp only
      rw [show ((0 : ℚ) * 1000) = 0 by norm_num, Int.floor_zero]
      rfl
    rw [hp0]
    rfl
  exact ⟨rfl, hl, hp, by rw [hl]; decide⟩

/-- C9 (confirmed): when the content-analysis LLM call succeeds but its
response fails to JSON-decode, the stage does not raise: it returns exactly
the documented safe defaults (content_type "unknown", sentiment
{neutral: 1.0, confidence: 0.1}, summary "Analysis failed - JSON parse
error") with no error event, and the run proceeds from that updated state
into the next routed stage. -/
theorem claim_C9 (env : Env) (s : ContentState) (raw : String)
    (hllm : env.llmAvailable = true)
    (hok : (call_llm_with_retry env.ca_attempts env.ca_jitter 4).1
      = Except.ok raw)
    (hparse : env.parseAnalysis (extract_json raw) = none) :
    content_analysis_node env s = (caDefaultsParseFail s, []) ∧
    (caDefaultsParseFail s).content_type = some "unknown" ∧
    (caDefaultsParseFail s).sentiment
      = some [("neutral", (1 : ℚ)), ("confidence", (1 : ℚ)/10)] ∧
    (caDefaultsParseFail s).summary
      = some "Analysis failed - JSON parse error" ∧
    runWorkflow env s = runFromVerifyCheck env (caDefaultsParseFail s) [] := by
  have hmain : content_analysis_node env s = (caDefaultsParseFail s, []) := by
    unfold content_analysis_node
    rw [hllm, if_neg (by decide : ¬ (true = false)), hok]
    dsimp only
    rw [hparse]
  refine ⟨hmain, rfl, rfl, rfl, ?_⟩
  simp only [runWorkflow]
  rw [hmain]

/-- The benign environment whose content-analysis response fails to
JSON-decode. -/
def envC9 : Env := { testEnv with parseAnalysis := fun _ => none }

/-- C9 witness: a concrete malformed content-analysis response yields the
default classification update and the run continues from it. -/
theorem claim_C9_witness :
    content_analysis_node envC9 emptyState
      = (caDefaultsParseFail emptyState, []) ∧
    runWorkflow envC9 emptyState
      = runFromVerifyCheck envC9 (caDefaultsParseFail emptyState) [] := by
  have h := claim_C9 envC9 emptyState "{}" rfl rfl rfl
  exact ⟨h.1, h.2.2.2.2⟩

/-- C10 (amended): both routing predicates are deterministic functions
returning a valid next-stage name, and should_include_verification reads
only the State (it takes no session argument in this embedding because the
source reads none); but route_by_risk_level reads the ambient session's
analysis_speed preference, and is session-independent only for states whose
risk level is not "medium".  (The original claim said both predicates
depend on the State alone; for medium-risk states route_by_risk_level's
answer changes with the session preference — see the counterexample.) -/
theorem claim_C10 (s : ContentState) (sp1 sp2 : Option String)
    (h : s.risk_level.getD "low" ≠ "medium") :
    route_by_risk_level sp1 s = route_by_risk_level sp2 s ∧
    (route_by_risk_level sp1 s = "human_review" ∨
     route_by_risk_level sp1 s = "generate_report") ∧
    (should_include_verification s = "verification" ∨
     should_include_verification s = "risk_assessment") := by
  refine ⟨?_, ?_, ?_⟩
  · unfold route_by_risk_level
    dsimp only
    by_cases hc : (s.risk_level.getD "low" = "critical"
        || s.risk_level.getD "low" = "high"
        || s.force_human_review.getD false) = true
    · rw [if_pos hc, if_pos hc]
    · rw [if_neg hc, if_neg hc]
      simp [h]
  · unfold route_by_risk_level
    dsimp only
    split
    · exact Or.inl rfl
    · split
      · exact Or.inl rfl
      · exact Or.inr rfl
  · unfold should_include_verification
    dsimp only
    split
    · exact Or.inr rfl
    · split
      · exact Or.inl rfl
      · split
        · exact Or.inl rfl
        · exact Or.inr rfl

/-- C10 witness: on a non-medium state the route is the same under two
different session preferences. -/
theorem claim_C10_witness :
    route_by_risk_level (some "thorough") emptyState
      = route_by_risk_level (some "balanced") emptyState ∧
    (route_by_risk_level (some "thorough") emptyState = "human_review" ∨
     route_by_risk_level (some "thorough") emptyState = "generate_report") ∧
    (should_include_verification emptyState = "verification" ∨
     should_include_verification emptyState = "risk_assessment") :=
  claim_C10 emptyState (some "thorough") (some "balanced") (by decide)

/-- A medium-risk, unforced state at routing time. -/
def sC10 : ContentState :=
  { emptyState with risk_level := some "medium",
                    force_human_review := some false }

/-- C10 counterexample: on the same medium-risk State,
route_by_risk_level answers "human_review" when the ambient session's
analysis_speed is "thorough" and "generate_report" when it is "balanced" —
its result is not a function of the State alone. -/
theorem claim_C10_counterexample :
    route_by_risk_level (some "thorough") sC10 = "human_review" ∧
    route_by_risk_level (some "balanced") sC10 = "generate_report" ∧
    route_by_risk_level (some "thorough") sC10
      ≠ route_by_risk_level (some "balanced") sC10 := by
  refine ⟨by decide, by decide, by decide⟩

end ContentPipeline
